import Mathlib

/-!
Verification of the SLEEP header codec in `src/src/lib.rs` (crate
`sleep-parser`).

The source defines the enums `HashAlgorithm`, `FileType`, `Version`, the
struct `Header`, and the function `Header::from_vec`, which parses a byte
buffer into a `Header` or fails with an `io::Error` carrying a message.
We embed the buffer as a `List Nat` of byte values and the fallible parse
as `Except ParseError Header`, where each `ParseError` constructor stands
for one distinct `bail!`/`ensure!` site (identified by its message) in the
source.

`Header::to_vec` and `Header::new` are unimplemented stubs in the source
(`to_vec` returns unit); serialization is therefore modelled from the
spec where a claim needs it (see `to_vec` below).
-/

namespace SleepParser

/-- Algorithm used for hashing the data (source lines 44-49). -/
inductive HashAlgorithm where
  | BLAKE2b
  | Ed25519
deriving DecidableEq

/-- Type of file (source lines 52-56). -/
inductive FileType where
  | BitField
  | Signatures
  | Tree
deriving DecidableEq

/-- SLEEP protocol version (source lines 59-61). -/
inductive Version where
  | V0
deriving DecidableEq

/-- Struct representation of 32 byte SLEEP headers (source lines 64-69). -/
structure Header where
  file_type : FileType
  version : Version
  entry_size : Nat
  hash_algorithm : HashAlgorithm
deriving DecidableEq

/-- One constructor per distinct failure site of `Header::from_vec`.
`MalformedHeader` is the length check ("buffer should be at least 32
bytes"); `BadMagic i` is the check on magic byte `i` for `i = 0, 1, 2`
(the three byte-specific messages); `UnknownFileType num` is the
`bail!` in the `match` on `buffer[3]` ("The byte num does not belong to
any known SLEEP file type"). -/
inductive ParseError where
  | MalformedHeader
  | BadMagic (byteIndex : Nat)
  | UnknownFileType (num : Nat)
deriving DecidableEq

/-- Embedding of `Header::from_vec` (source lines 80-114). The source
checks `buffer.len() == 32`, then `buffer[0] == 5`, `buffer[1] == 2`,
`buffer[2] == 87`, then matches `buffer[3]` against 0, 1, 2; on success
it returns `Header { version: V0, entry_size: 40, file_type,
hash_algorithm: BLAKE2b }` with the latter three fields fixed constants.
Indexing uses `getD _ 0`, reached only under the length-32 guard where it
agrees with the source's panicking index. -/
def from_vec (buffer : List Nat) : Except ParseError Header :=
  if buffer.length = 32 then
    if buffer.getD 0 0 = 5 then
      if buffer.getD 1 0 = 2 then
        if buffer.getD 2 0 = 87 then
          if buffer.getD 3 0 = 0 then
            Except.ok ⟨FileType.BitField, Version.V0, 40, HashAlgorithm.BLAKE2b⟩
          else if buffer.getD 3 0 = 1 then
            Except.ok ⟨FileType.Signatures, Version.V0, 40, HashAlgorithm.BLAKE2b⟩
          else if buffer.getD 3 0 = 2 then
            Except.ok ⟨FileType.Tree, Version.V0, 40, HashAlgorithm.BLAKE2b⟩
          else
            Except.error (ParseError.UnknownFileType (buffer.getD 3 0))
        else Except.error (ParseError.BadMagic 2)
      else Except.error (ParseError.BadMagic 1)
    else Except.error (ParseError.BadMagic 0)
  else Except.error ParseError.MalformedHeader

instance : DecidableEq (Except ParseError Header) := fun a b =>
  match a, b with
  | Except.ok x, Except.ok y =>
      if h : x = y then isTrue (by rw [h]) else isFalse (by simp [h])
  | Except.ok _, Except.error _ => isFalse (by simp)
  | Except.error _, Except.ok _ => isFalse (by simp)
  | Except.error x, Except.error y =>
      if h : x = y then isTrue (by rw [h]) else isFalse (by simp [h])

/-- Byte encoding of a `FileType`, from the on-disk layout (0 = BitField,
1 = Signatures, 2 = Tree), matching the `match` arms of `from_vec`. -/
def fileTypeByte : FileType → Nat
  | FileType.BitField => 0
  | FileType.Signatures => 1
  | FileType.Tree => 2

/-- Byte encoding of a `Version` (V0 = 0). -/
def versionByte : Version → Nat
  | Version.V0 => 0

/-- ASCII bytes of the algorithm name: "BLAKE2b" and "Ed25519". -/
def algorithmName : HashAlgorithm → List Nat
  | HashAlgorithm.BLAKE2b => [66, 76, 65, 75, 69, 50, 98]
  | HashAlgorithm.Ed25519 => [69, 100, 50, 53, 53, 49, 57]

/-- Modelled from the spec: `Header::to_vec` in the source (line 118) is
an unimplemented stub whose body is empty and returns unit, so the
serialization behaviour is missing from the code. Following spec section
4.1 Serialize: write the magic `05 02 57`, the file-type byte, the
version byte, the entry size as a big-endian u16, the algorithm-name
length prefix and name bytes, then zero-fill to 32 bytes total. -/
def to_vec (h : Header) : List Nat :=
  let name := algorithmName h.hash_algorithm
  let front : List Nat :=
    [5, 2, 87, fileTypeByte h.file_type, versionByte h.version,
      h.entry_size / 256 % 256, h.entry_size % 256, name.length] ++ name
  front ++ List.replicate (32 - front.length) 0

/-- A valid header per the spec: a signatures file using Ed25519 with a
64-byte entry width ("signatures files may use a different width
depending on algorithm"). -/
def c1Hdr : Header := ⟨FileType.Signatures, Version.V0, 64, HashAlgorithm.Ed25519⟩

/-- A 32-byte buffer that is valid except that its big-endian u16 entry
size at offset 5 is 41 (bytes `00 29`), not 40. -/
def c2Buf : List Nat :=
  [5, 2, 87, 0, 0, 0, 41, 7, 66, 76, 65, 75, 69, 50, 98] ++ List.replicate 17 0

/-- A 32-byte buffer that is valid except that its version byte at
offset 4 is 1. -/
def c3Buf : List Nat :=
  [5, 2, 87, 0, 1, 0, 40, 7, 66, 76, 65, 75, 69, 50, 98] ++ List.replicate 17 0

/-- A 32-byte buffer that is valid except that its 7-byte algorithm name
at offset 8 is "AAAAAAA", which is neither "BLAKE2b" nor "Ed25519". -/
def c4Buf : List Nat :=
  [5, 2, 87, 0, 0, 0, 40, 7, 65, 65, 65, 65, 65, 65, 65] ++ List.replicate 17 0

/-- A 32-byte buffer that is valid except that its final padding byte at
offset 31 is 255, not 0. -/
def c5Buf : List Nat :=
  [5, 2, 87, 2, 0, 0, 40, 7, 66, 76, 65, 75, 69, 50, 98] ++
    List.replicate 16 0 ++ [255]

/-- CLAIM C1. The spec claims `Parse(Serialize(h)) == h` for every valid
header `h`. This fails on the code: `to_vec` is an unimplemented stub
(here modelled from the spec), and `from_vec` hardcodes `entry_size = 40`
and `hash_algorithm = BLAKE2b`, so the valid header `c1Hdr` (Signatures,
entry size 64, Ed25519) does not survive the round trip. -/
theorem c1_roundtrip_fails :
    from_vec (to_vec c1Hdr) =
      Except.ok ⟨FileType.Signatures, Version.V0, 40, HashAlgorithm.BLAKE2b⟩ ∧
    from_vec (to_vec c1Hdr) ≠ Except.ok c1Hdr := by
  constructor
  · rfl
  · decide

/-- CLAIM C2. The spec claims the returned `entry_size` equals the
big-endian u16 at offset 5 of the buffer. This fails on the code: on
`c2Buf`, whose entry-size bytes encode 41, `from_vec` returns the fixed
constant 40. -/
theorem c2_entry_size_hardcoded :
    from_vec c2Buf =
      Except.ok ⟨FileType.BitField, Version.V0, 40, HashAlgorithm.BLAKE2b⟩ ∧
    c2Buf.getD 5 0 * 256 + c2Buf.getD 6 0 = 41 := by
  constructor
  · rfl
  · decide

/-- CLAIM C3. The spec claims a non-zero version byte yields
`UnsupportedVersion`. This fails on the code: `from_vec` never reads the
version byte, so `c3Buf` (version byte 1, valid magic and file type) is
accepted and reported as `V0`. -/
theorem c3_version_unchecked :
    from_vec c3Buf =
      Except.ok ⟨FileType.BitField, Version.V0, 40, HashAlgorithm.BLAKE2b⟩ ∧
    c3Buf.getD 4 0 = 1 := by
  constructor
  · rfl
  · decide

/-- CLAIM C4. The spec claims the algorithm name is read and unknown
names yield `UnknownAlgorithm`. This fails on the code: `from_vec` never
reads the name, so `c4Buf`, whose 7-byte name "AAAAAAA" matches neither
known algorithm, is accepted with the fixed constant `BLAKE2b`. -/
theorem c4_algorithm_unchecked :
    from_vec c4Buf =
      Except.ok ⟨FileType.BitField, Version.V0, 40, HashAlgorithm.BLAKE2b⟩ ∧
    (c4Buf.drop 8).take 7 ≠ algorithmName HashAlgorithm.BLAKE2b ∧
    (c4Buf.drop 8).take 7 ≠ algorithmName HashAlgorithm.Ed25519 := by
  refine ⟨rfl, ?_, ?_⟩ <;> decide

/-- CLAIM C5. The spec claims non-zero padding after the algorithm name
yields `CorruptPadding`. This fails on the code: `from_vec` never reads
the padding, so `c5Buf`, whose final padding byte is 255, is accepted. -/
theorem c5_padding_unchecked :
    from_vec c5Buf =
      Except.ok ⟨FileType.Tree, Version.V0, 40, HashAlgorithm.BLAKE2b⟩ ∧
    c5Buf.getD 31 0 = 255 := by
  constructor
  · rfl
  · decide

/-- A 32-byte buffer whose byte 0 is 0 (not 5). -/
def c6BufA : List Nat := List.replicate 32 0

/-- A 32-byte buffer with correct magic whose file-type byte is 9. -/
def c6BufB : List Nat := [5, 2, 87, 9] ++ List.replicate 28 0

/-- CLAIM C6. Any 32-byte buffer whose byte 0 is not 5 fails the
first-magic-byte check (the `BadMagic` failure for byte 0); any 32-byte
buffer with correct magic whose byte 3 is outside {0, 1, 2} fails with
the unknown-file-type error carrying that byte. -/
theorem c6_magic_and_file_type :
    (∀ b : List Nat, b.length = 32 → b.getD 0 0 ≠ 5 →
      from_vec b = Except.error (ParseError.BadMagic 0)) ∧
    (∀ b : List Nat, b.length = 32 → b.getD 0 0 = 5 → b.getD 1 0 = 2 →
      b.getD 2 0 = 87 → b.getD 3 0 ≠ 0 → b.getD 3 0 ≠ 1 → b.getD 3 0 ≠ 2 →
      from_vec b = Except.error (ParseError.UnknownFileType (b.getD 3 0))) := by
  constructor
  · intro b hl h0
    unfold from_vec
    rw [if_pos hl, if_neg h0]
  · intro b hl h0 h1 h2 t0 t1 t2
    unfold from_vec
    rw [if_pos hl, if_pos h0, if_pos h1, if_pos h2, if_neg t0, if_neg t1,
      if_neg t2]

/-- Witness for C6: the all-zero buffer fails with `BadMagic 0`; the
correct-magic buffer with file-type byte 9 fails with
`UnknownFileType 9`. -/
theorem c6_witness :
    from_vec c6BufA = Except.error (ParseError.BadMagic 0) ∧
    from_vec c6BufB = Except.error (ParseError.UnknownFileType 9) :=
  ⟨c6_magic_and_file_type.1 c6BufA (by decide) (by decide),
   c6_magic_and_file_type.2 c6BufB (by decide) (by decide) (by decide)
     (by decide) (by decide) (by decide) (by decide)⟩

/-- CLAIM C7. Every buffer whose length is not 32 fails the length check
with `MalformedHeader`, so no buffer of any other length is accepted. -/
theorem c7_length_check (b : List Nat) (h : b.length ≠ 32) :
    from_vec b = Except.error ParseError.MalformedHeader := by
  simp [from_vec, h]

/-- Witness for C7: the empty buffer is rejected with
`MalformedHeader`. -/
theorem c7_witness :
    ([] : List Nat).length ≠ 32 ∧
    from_vec [] = Except.error ParseError.MalformedHeader :=
  ⟨by decide, c7_length_check [] (by decide)⟩

/-- The buffer literally described by the claim: the 14 bytes
`05 02 57 02 00 28 07 42 4C 41 4B 45 32 62` followed by 17 zero bytes,
which is 31 bytes in total. -/
def c8ClaimBuf : List Nat :=
  [5, 2, 87, 2, 0, 40, 7, 66, 76, 65, 75, 69, 50, 98] ++ List.replicate 17 0

/-- The corrected buffer: the same header with the missing high byte of
the big-endian entry size restored (`05 02 57 02 00 00 28 07` then
"BLAKE2b"), followed by 17 zero bytes — 32 bytes in total, matching the
spec's own layout. -/
def c8AmendedBuf : List Nat :=
  [5, 2, 87, 2, 0, 0, 40, 7, 66, 76, 65, 75, 69, 50, 98] ++ List.replicate 17 0

/-- Counterexample to C8 as stated: the claimed byte sequence is only 31
bytes long, so `from_vec` rejects it with `MalformedHeader` instead of
succeeding. -/
theorem c8_counterexample :
    c8ClaimBuf.length = 31 ∧
    from_vec c8ClaimBuf = Except.error ParseError.MalformedHeader ∧
    from_vec c8ClaimBuf ≠
      Except.ok ⟨FileType.Tree, Version.V0, 40, HashAlgorithm.BLAKE2b⟩ := by
  refine ⟨by decide, rfl, ?_⟩
  decide

/-- CLAIM C8 amended: parsing the 32-byte buffer `05 02 57 02 00 00 28
07 42 4C 41 4B 45 32 62` + 17 zero bytes succeeds and returns
`Header{file_type: Tree, entry_size: 40, hash_algorithm: BLAKE2b,
version: V0}`. -/
theorem c8_amended_parse :
    from_vec c8AmendedBuf =
      Except.ok ⟨FileType.Tree, Version.V0, 40, HashAlgorithm.BLAKE2b⟩ := rfl

/-- A 32-byte signatures-file header buffer. -/
def c9Buf : List Nat := [5, 2, 87, 1] ++ List.replicate 28 0

/-- CLAIM C9. `from_vec` succeeds exactly when the buffer has length 32,
magic bytes 5, 2, 87, and byte 3 in {0, 1, 2}; and every header it
returns has version `V0`, entry size 40 and algorithm `BLAKE2b`
regardless of the rest of the buffer. -/
theorem c9_success_characterization :
    (∀ b : List Nat,
      (∃ h : Header, from_vec b = Except.ok h) ↔
        (b.length = 32 ∧ b.getD 0 0 = 5 ∧ b.getD 1 0 = 2 ∧ b.getD 2 0 = 87 ∧
          (b.getD 3 0 = 0 ∨ b.getD 3 0 = 1 ∨ b.getD 3 0 = 2))) ∧
    (∀ (b : List Nat) (h : Header), from_vec b = Except.ok h →
      h.version = Version.V0 ∧ h.entry_size = 40 ∧
        h.hash_algorithm = HashAlgorithm.BLAKE2b) := by
  constructor
  · intro b
    constructor
    · rintro ⟨h, hh⟩
      simp only [from_vec] at hh
      split_ifs at hh <;> simp_all
    · rintro ⟨hl, h0, h1, h2, h3⟩
      rcases h3 with h3 | h3 | h3
      · exact ⟨_, by
          unfold from_vec
          rw [if_pos hl, if_pos h0, if_pos h1, if_pos h2, if_pos h3]⟩
      · exact ⟨_, by
          unfold from_vec
          rw [if_pos hl, if_pos h0, if_pos h1, if_pos h2,
            if_neg (by omega), if_pos h3]⟩
      · exact ⟨_, by
          unfold from_vec
          rw [if_pos hl, if_pos h0, if_pos h1, if_pos h2,
            if_neg (by omega), if_neg (by omega), if_pos h3]⟩
  · intro b h hh
    simp only [from_vec] at hh
    split_ifs at hh <;> simp_all <;> simp [← hh]

/-- Witness for C9: the signatures-file buffer `c9Buf` satisfies the
success conditions, parses successfully, and the returned header has
version `V0`, entry size 40 and algorithm `BLAKE2b`. -/
theorem c9_witness :
    Header.version ⟨FileType.Signatures, Version.V0, 40, HashAlgorithm.BLAKE2b⟩
        = Version.V0 ∧
    Header.entry_size ⟨FileType.Signatures, Version.V0, 40, HashAlgorithm.BLAKE2b⟩
        = 40 ∧
    Header.hash_algorithm
        ⟨FileType.Signatures, Version.V0, 40, HashAlgorithm.BLAKE2b⟩
        = HashAlgorithm.BLAKE2b :=
  c9_success_characterization.2 c9Buf
    ⟨FileType.Signatures, Version.V0, 40, HashAlgorithm.BLAKE2b⟩ rfl

/-- CLAIM C10. Two 32-byte buffers agreeing on bytes 0 through 3 produce
identical parse results: bytes 4 through 31 never influence the
outcome. -/
theorem c10_first_four_bytes_determine (b1 b2 : List Nat)
    (hl1 : b1.length = 32) (hl2 : b2.length = 32)
    (e0 : b1.getD 0 0 = b2.getD 0 0) (e1 : b1.getD 1 0 = b2.getD 1 0)
    (e2 : b1.getD 2 0 = b2.getD 2 0) (e3 : b1.getD 3 0 = b2.getD 3 0) :
    from_vec b1 = from_vec b2 := by
  simp only [from_vec, hl1, hl2, e0, e1, e2, e3]

/-- A 32-byte tree-file buffer with all-zero tail. -/
def c10BufA : List Nat := [5, 2, 87, 2] ++ List.replicate 28 0

/-- A 32-byte tree-file buffer agreeing with `c10BufA` on bytes 0-3 but
with final byte 255. -/
def c10BufB : List Nat := [5, 2, 87, 2] ++ List.replicate 27 0 ++ [255]

/-- Witness for C10: the two concrete buffers agreeing on bytes 0-3 but
differing at byte 31 parse to the same result. -/
theorem c10_witness : from_vec c10BufA = from_vec c10BufB :=
  c10_first_four_bytes_determine c10BufA c10BufB (by decide) (by decide)
    (by decide) (by decide) (by decide) (by decide)

end SleepParser
